import Mathlib

/-!
Verification of the Logistics-App dispatch-planning core (src/src/App.js):
the driver/vehicle scoring and ranking engine, the fuel-cost derivation,
and the trip status lifecycle with its permission guard.

Numbers are modelled as rationals (`ℚ`); JavaScript's `toFixed(2)` followed
by `parseFloat` is modelled as rounding half-up at two decimal places.
-/

/-! ## Definitions -/

/-- Rounding to 2 decimal places, half away from zero for the nonnegative
values this code produces: models `parseFloat(x.toFixed(2))`. -/
def round2 (x : ℚ) : ℚ := (⌊x * 100 + 1 / 2⌋ : ℚ) / 100

/-- Embeds `calculateDriverScore` (App.js lines 55-73): weighted sum of a
performance, hours-worked and proximity component, clamped to [0,100] and
rounded to 2 decimals. -/
def calculateDriverScore (performanceRating hoursWorked proximityScore : ℚ) : ℚ :=
  let performanceComponent := performanceRating / 5 * 40
  let clampedHoursWorked := min hoursWorked 9
  let hoursComponent := (1 - clampedHoursWorked / 9) * 30
  let proximityComponent := proximityScore / 100 * 30
  let driverScore := performanceComponent + hoursComponent + proximityComponent
  round2 (max 0 (min 100 driverScore))

/-- Embeds the maintenance-penalty branch of `calculateVehicleScore`
(App.js lines 83-88): 30 for the string "Poor", 15 for "Needs Check"
(with a space, exactly as the source spells it), otherwise 0. -/
def maintenancePenalty (maintenanceStatus : String) : ℚ :=
  if maintenanceStatus = "Poor" then 30
  else if maintenanceStatus = "Needs Check" then 15
  else 0

/-- Embeds `calculateVehicleScore` (App.js lines 82-99):
fuelEfficiency * 5 + utilizationScore - maintenancePenalty, clamped to
[0,100] and rounded to 2 decimals. -/
def calculateVehicleScore (fuelEfficiency utilizationScore : ℚ)
    (maintenanceStatus : String) : ℚ :=
  let vehicleScore := fuelEfficiency * 5 + utilizationScore -
    maintenancePenalty maintenanceStatus
  round2 (max 0 (min 100 vehicleScore))

/-- A driver candidate as supplied to the scorer (the mockDrivers entries in
`handleSubmit`, App.js lines 728-732). -/
structure Driver where
  id : String
  name : String
  location : String
  hoursWorked : ℚ
  performanceRating : ℚ
  proximityScore : ℚ
deriving DecidableEq

/-- A driver together with its computed driverScore, as built by the
`mockDrivers.map` in `handleSubmit`. -/
structure ScoredDriver where
  driver : Driver
  driverScore : ℚ
deriving DecidableEq

/-- A vehicle candidate (the mockVehicles entries in `handleSubmit`,
App.js lines 734-738). -/
structure Vehicle where
  id : String
  vtype : String
  capacity : String
  fuelEfficiency : ℚ
  maintenanceStatus : String
  utilizationScore : ℚ
deriving DecidableEq

/-- A vehicle together with its computed vehicleScore. -/
structure ScoredVehicle where
  vehicle : Vehicle
  vehicleScore : ℚ
deriving DecidableEq

/-- The route object stored on a trip (assembled in `handleFinalConfirmTrip`
and `mockSuggestions`). -/
structure RouteInfo where
  origin : String
  destination : String
  eta : String
  distance : String
  cost : String
  riskRating : String
  deliveryTimeSlot : String
deriving DecidableEq

/-- A persisted trip document: the fields written by `saveTripToFirestore`
and read back by `TripsOverview`. -/
structure Trip where
  id : String
  route : RouteInfo
  driver : Option ScoredDriver
  vehicle : Option ScoredVehicle
  actualDeliveryTime : String
  deliveryStatus : String
  status : String
  createdAt : String
deriving DecidableEq

/-- A toast notification as raised through `onShowToast(message, kind)`. -/
structure Toast where
  message : String
  kind : String
deriving DecidableEq

/-- Result of one `updateTripStatus` call: the toast it raised (if any) and
the trip record afterwards. -/
structure UpdateOutcome where
  toast : Option Toast
  trip : Trip
deriving DecidableEq

/-- Embeds `canModifyTrips` (App.js line 955):
role === 'dispatcher' || role === 'admin'. -/
def canModifyTrips (role : String) : Bool :=
  role == "dispatcher" || role == "admin"

/-- The permission-rejection toast of `updateTripStatus`. -/
def permissionToast (newStatus : String) : Toast :=
  { message := "You do not have permission to change trip status to \x27"
      ++ newStatus ++ "\x27.",
    kind := "error" }

/-- The success toast of `updateTripStatus`. -/
def successToast (newStatus : String) : Toast :=
  { message := "Trip status updated to \x27" ++ newStatus ++ "\x27 successfully!",
    kind := "success" }

/-- The update-failure toast of `updateTripStatus`. -/
def failureToast (newStatus : String) : Toast :=
  { message := "Failed to update trip status to \x27" ++ newStatus ++ "\x27.",
    kind := "error" }

/-- Embeds `updateTripStatus` (App.js lines 1000-1017) acting on one trip
record. `dbReady`/`userReady` model the `db`/`userId` truthiness checks,
`confirmAction` the `window.confirm` answer and `updateSucceeds` whether the
`updateDoc` call throws. A successful update writes `{ status: newStatus }`
and nothing else. -/
def updateTripStatus (dbReady userReady : Bool) (role : String)
    (confirmAction updateSucceeds : Bool) (trip : Trip)
    (newStatus : String) : UpdateOutcome :=
  if !dbReady || !userReady || !canModifyTrips role then
    { toast := some (permissionToast newStatus), trip := trip }
  else if confirmAction then
    if updateSucceeds then
      { toast := some (successToast newStatus),
        trip := { trip with status := newStatus } }
    else
      { toast := some (failureToast newStatus), trip := trip }
  else
    { toast := none, trip := trip }

/-- Models JavaScript String.prototype.toLowerCase as used on the ASCII
status strings of this app: character-wise lower-casing. -/
def strToLower (s : String) : String := ⟨s.data.map Char.toLower⟩

/-- The status-changing actions TripsOverview renders for a trip
(App.js lines 1153-1190): for a scheduled trip the In Progress and Cancel
buttons, for an in-progress trip the Complete and Cancel buttons, nothing
otherwise; all only when `canModifyTrips`. Each listed string is the
`newStatus` the button passes to `updateTripStatus`. -/
def renderedStatusTargets (status : String) (canModify : Bool) : List String :=
  (if strToLower status == "scheduled" && canModify then
    ["In Progress", "Cancelled"] else []) ++
  (if strToLower status == "in progress" && canModify then
    ["Completed", "Cancelled"] else [])

/-- A sample route record for concrete trips. -/
def sampleRoute : RouteInfo :=
  { origin := "Mumbai", destination := "Pune", eta := "4h 30m",
    distance := "350 km", cost := "$120.00", riskRating := "Low",
    deliveryTimeSlot := "Morning" }

/-- A trip already in the terminal state Completed. -/
def completedTrip : Trip :=
  { id := "trip1", route := sampleRoute, driver := none, vehicle := none,
    actualDeliveryTime := "2026-01-02T10:00:00Z", deliveryStatus := "on-time",
    status := "Completed", createdAt := "2026-01-01T08:00:00Z" }

/-- A trip in the initial state Scheduled. -/
def scheduledTrip : Trip :=
  { id := "trip2", route := sampleRoute, driver := none, vehicle := none,
    actualDeliveryTime := "2026-01-02T10:00:00Z", deliveryStatus := "on-time",
    status := "Scheduled", createdAt := "2026-01-01T08:00:00Z" }

/-- The order the JS comparator `(a, b) => b.score - a.score` induces:
`a` may come before `b` iff `score b ≤ score a`. The ranking code
(`handleSubmit`, App.js lines 741-770) sorts with this comparator;
`Array.prototype.sort` is stable (ES2019), so it is modelled below by the
stable insertion sort ordered by descending score. -/
def scoreDesc {α : Type} (score : α → ℚ) (a b : α) : Prop :=
  score b ≤ score a

instance {α : Type} (score : α → ℚ) : DecidableRel (scoreDesc score) :=
  fun a b => inferInstanceAs (Decidable (score b ≤ score a))

instance {α : Type} (score : α → ℚ) : IsTotal α (scoreDesc score) :=
  ⟨fun a b => le_total (score b) (score a)⟩

instance {α : Type} (score : α → ℚ) : IsTrans α (scoreDesc score) :=
  ⟨fun _ _ _ h1 h2 => le_trans h2 h1⟩

/-- Stable sort by descending score: the model of
`.sort((a, b) => b.score - a.score)`. -/
def stableSortDesc {α : Type} (score : α → ℚ) (l : List α) : List α :=
  l.insertionSort (scoreDesc score)

/-- One entry of the `mockDrivers.map(...)`: the driver together with the
driverScore computed from its attributes. -/
def scoreDriverEntry (d : Driver) : ScoredDriver :=
  { driver := d,
    driverScore :=
      calculateDriverScore d.performanceRating d.hoursWorked d.proximityScore }

/-- One entry of the `mockVehicles.map(...)`. -/
def scoreVehicleEntry (v : Vehicle) : ScoredVehicle :=
  { vehicle := v,
    vehicleScore :=
      calculateVehicleScore v.fuelEfficiency v.utilizationScore
        v.maintenanceStatus }

/-- The `scoredDrivers` list of `handleSubmit`: score each candidate, then
sort by score, highest first. -/
def scoredDriversOf (ds : List Driver) : List ScoredDriver :=
  stableSortDesc ScoredDriver.driverScore (ds.map scoreDriverEntry)

/-- The `scoredVehicles` list of `handleSubmit`. -/
def scoredVehiclesOf (vs : List Vehicle) : List ScoredVehicle :=
  stableSortDesc ScoredVehicle.vehicleScore (vs.map scoreVehicleEntry)

/-- The `recommendedDriverId: scoredDrivers[0]?.id` field of
`mockSuggestions`. -/
def recommendedDriverId (ds : List Driver) : Option String :=
  (scoredDriversOf ds).head?.map (fun s => s.driver.id)

/-- The `recommendedVehicleId: scoredVehicles[0]?.id` field of
`mockSuggestions`. -/
def recommendedVehicleId (vs : List Vehicle) : Option String :=
  (scoredVehiclesOf vs).head?.map (fun s => s.vehicle.id)

/-- First entry of the `mockDrivers` list of `handleSubmit`. -/
def mockDriver1 : Driver :=
  { id := "driver1", name := "Alice Smith", location := "Downtown",
    hoursWorked := 6, performanceRating := 5, proximityScore := 80 }

/-- Second entry of the `mockDrivers` list. -/
def mockDriver2 : Driver :=
  { id := "driver2", name := "Bob Johnson", location := "Northside",
    hoursWorked := 9, performanceRating := 4, proximityScore := 50 }

/-- Third entry of the `mockDrivers` list. -/
def mockDriver3 : Driver :=
  { id := "driver3", name := "Charlie Brown", location := "Southside",
    hoursWorked := 4, performanceRating := 3, proximityScore := 90 }

/-- The `mockDrivers` list of `handleSubmit`. -/
def mockDrivers : List Driver := [mockDriver1, mockDriver2, mockDriver3]

/-- The fixed currency-exchange rate `USD_TO_INR_RATE` (App.js line 8). -/
def USD_TO_INR_RATE : ℚ := 83.5

/-- Models `String.prototype.replace` with a plain-string pattern: replaces
the first occurrence only. -/
def replaceFirstAux (pat rep : List Char) : List Char → List Char
  | [] => []
  | c :: cs =>
    if pat.isPrefixOf (c :: cs) then rep ++ (c :: cs).drop pat.length
    else c :: replaceFirstAux pat rep cs

/-- Model of `s.replace(pat, rep)` for a string pattern (first occurrence
only, as in JavaScript). -/
def replaceFirst (s pat rep : String) : String :=
  ⟨replaceFirstAux pat.data rep.data s.data⟩

/-- Numeric value of a digit string. -/
def digitsVal (ds : List Char) : ℕ :=
  ds.foldl (fun n c => 10 * n + (c.toNat - 48)) 0

/-- Syntactic stage of JavaScript parseFloat for plain decimal literals:
skips leading spaces, reads an optional sign, an integer part and an
optional fractional part, ignoring any trailing characters; `none` models a
NaN result (no digits at all). Exponent notation is not modelled (no input
of this app carries one). -/
def parseFloatParts (cs0 : List Char) : Option (Bool × List Char × List Char) :=
  let cs1 := cs0.dropWhile (fun c => c = ' ')
  let neg := cs1.head? = some '-'
  let cs2 := if cs1.head? = some '-' ∨ cs1.head? = some '+' then cs1.tail
    else cs1
  let intPart := cs2.takeWhile Char.isDigit
  let rest := cs2.dropWhile Char.isDigit
  let fracPart := if rest.head? = some '.' then
    rest.tail.takeWhile Char.isDigit else []
  if intPart = [] ∧ fracPart = [] then none
  else some (neg, intPart, fracPart)

/-- The rational value of a parsed sign/integer-part/fraction-part triple. -/
def floatVal (neg : Bool) (intPart fracPart : List Char) : ℚ :=
  (if neg then -1 else 1) *
    ((digitsVal intPart : ℚ) + (digitsVal fracPart : ℚ) / 10 ^ fracPart.length)

/-- JavaScript parseFloat on a string, as `Option ℚ` (`none` models NaN). -/
def parseFloatQ (s : String) : Option ℚ :=
  (parseFloatParts s.data).map fun p => floatVal p.1 p.2.1 p.2.2

/-- Models `x.toFixed(2)` for the nonnegative values this code produces. -/
def toFixed2 (x : ℚ) : String :=
  let n : ℤ := ⌊x * 100 + 1 / 2⌋
  let whole := n / 100
  let frac := (n % 100).toNat
  toString whole ++ "." ++
    (if frac < 10 then "0" ++ toString frac else toString frac)

/-- Embeds `calculateFuelCost` (App.js lines 10-18). The JS falsiness test
`!fuelEfficiency || !distance` is modelled by `none`/`0` for the efficiency
and `none`/`""` for the distance; an unparseable distance (parseFloat NaN)
also yields the sentinel. -/
def calculateFuelCost (fuelEfficiency : Option ℚ) (distance : Option String) :
    String :=
  match fuelEfficiency, distance with
  | some f, some d =>
    if f = 0 ∨ d = "" then "N/A"
    else
      match parseFloatQ (replaceFirst d " km" "") with
      | none => "N/A"
      | some distanceKm =>
        let costUSD := distanceKm / f * 0.5
        let costINR := costUSD * USD_TO_INR_RATE
        "₹" ++ toFixed2 costINR
  | _, _ => "N/A"

/-! ## Theorems -/

theorem round2_nonneg {x : ℚ} (hx : 0 ≤ x) : 0 ≤ round2 x := by
  unfold round2
  apply div_nonneg _ (by norm_num)
  have h : (0 : ℤ) ≤ ⌊x * 100 + 1 / 2⌋ := by
    apply Int.le_floor.mpr
    push_cast
    nlinarith
  exact_mod_cast h

theorem round2_le_100 {x : ℚ} (hx : x ≤ 100) : round2 x ≤ 100 := by
  unfold round2
  rw [div_le_iff₀ (by norm_num : (0:ℚ) < 100)]
  have h : ⌊x * 100 + 1 / 2⌋ ≤ 10000 := by
    have hlt : ⌊x * 100 + 1 / 2⌋ < 10001 := by
      apply Int.floor_lt.mpr
      push_cast
      nlinarith
    omega
  calc ((⌊x * 100 + 1 / 2⌋ : ℚ)) ≤ 10000 := by exact_mod_cast h
    _ = 100 * 100 := by norm_num

theorem clamp_mem_Icc (x : ℚ) : 0 ≤ max 0 (min 100 x) ∧ max 0 (min 100 x) ≤ 100 :=
  ⟨le_max_left 0 _, max_le (by norm_num) (min_le_left 100 x)⟩

theorem filter_orderedInsert {α : Type} (score : α → ℚ) (c : ℚ) (a : α)
    (l : List α) :
    (l.orderedInsert (scoreDesc score) a).filter (fun x => score x == c) =
      ((a :: l).filter (fun x => score x == c)) := by
  induction l with
  | nil => rfl
  | cons b l ih =>
    simp only [List.orderedInsert]
    split
    · rfl
    · next h =>
      have hab : ¬(score b ≤ score a) := h
      simp only [List.filter_cons, ih]
      by_cases hb : (score b == c) = true
      · by_cases ha : (score a == c) = true
        · exfalso
          rw [beq_iff_eq] at hb ha
          exact hab (le_of_eq (hb.trans ha.symm))
        · simp [hb, ha]
      · by_cases ha : (score a == c) = true <;> simp [hb, ha]

theorem filter_stableSortDesc {α : Type} (score : α → ℚ) (c : ℚ)
    (l : List α) :
    (stableSortDesc score l).filter (fun x => score x == c) =
      l.filter (fun x => score x == c) := by
  induction l with
  | nil => rfl
  | cons a l ih =>
    show ((stableSortDesc score l).orderedInsert (scoreDesc score) a).filter _
      = _
    rw [filter_orderedInsert]
    simp only [List.filter_cons, ih]

theorem stableSortDesc_head_max {α : Type} (score : α → ℚ) (l : List α)
    (x : α) (hx : x ∈ stableSortDesc score l) :
    ∃ t, (stableSortDesc score l).head? = some t ∧ score x ≤ score t := by
  rcases hsort : stableSortDesc score l with _ | ⟨t, rest⟩
  · rw [hsort] at hx
    cases hx
  · refine ⟨t, rfl, ?_⟩
    have hs : (stableSortDesc score l).Sorted (scoreDesc score) :=
      List.sorted_insertionSort (scoreDesc score) l
    rw [hsort] at hs hx
    rcases List.mem_cons.mp hx with rfl | hmem
    · exact le_refl _
    · exact List.rel_of_sorted_cons hs x hmem

/-- C1 counterexample: `updateTripStatus` performs no transition-table
check at all. Requesting the out-of-table transition Completed -> In Progress
with modify permission succeeds: the terminal trip is mutated and a success
toast is raised, not an illegal-transition error. -/
theorem illegal_transition_not_rejected :
    completedTrip.status = "Completed" ∧
    (updateTripStatus true true "dispatcher" true true completedTrip
      "In Progress").trip.status = "In Progress" ∧
    (updateTripStatus true true "dispatcher" true true completedTrip
      "In Progress").toast.map Toast.kind = some "success" :=
  ⟨rfl, rfl, rfl⟩

/-- C1 amended: the rejection of out-of-table transitions is enforced by
the UI, not by `updateTripStatus`: TripsOverview renders a status-change
action only along the table edges Scheduled -> {In Progress, Cancelled} and
In Progress -> {Completed, Cancelled}, and renders none for the terminal
states Completed and Cancelled, so no UI-requested transition leaves a
terminal state and a trip in any state other than scheduled/in progress is
left unchanged (no action exists that could call `updateTripStatus` on it);
but `updateTripStatus` itself checks no transition table and raises no
illegal-transition error. -/
theorem ui_transitions_follow_table :
    (∀ status : String, ∀ canModify : Bool, ∀ target : String,
      target ∈ renderedStatusTargets status canModify →
      canModify = true ∧
      ((strToLower status = "scheduled" ∧
          (target = "In Progress" ∨ target = "Cancelled")) ∨
        (strToLower status = "in progress" ∧
          (target = "Completed" ∨ target = "Cancelled")))) ∧
    (∀ c : Bool, renderedStatusTargets "Completed" c = [] ∧
      renderedStatusTargets "Cancelled" c = []) := by
  constructor
  · intro status canModify target h
    unfold renderedStatusTargets at h
    rw [List.mem_append] at h
    rcases h with h | h <;>
      [skip; skip] <;>
      · split at h
        · next hc =>
          rw [Bool.and_eq_true, beq_iff_eq] at hc
          simp only [List.mem_cons, List.not_mem_nil, or_false] at h
          exact ⟨hc.2, by tauto⟩
        · simp at h
  · intro c
    cases c <;> exact ⟨by decide, by decide⟩

theorem ui_transitions_follow_table_witness :
    ("In Progress" ∈ renderedStatusTargets "Scheduled" true) ∧
    (true = true ∧
      ((strToLower "Scheduled" = "scheduled" ∧
          ("In Progress" = "In Progress" ∨ "In Progress" = "Cancelled")) ∨
        (strToLower "Scheduled" = "in progress" ∧
          ("In Progress" = "Completed" ∨ "In Progress" = "Cancelled")))) :=
  ⟨by decide, ui_transitions_follow_table.1 "Scheduled" true "In Progress"
    (by decide)⟩

/-- C2: a caller whose role is neither dispatcher nor admin (e.g. viewer)
has every transition request rejected with the permission-error toast, the
trip record is not mutated, and a Scheduled trip stays Scheduled. -/
theorem permission_guard (dbReady userReady : Bool) (role : String)
    (confirmAction updateSucceeds : Bool) (trip : Trip) (newStatus : String)
    (h1 : role ≠ "dispatcher") (h2 : role ≠ "admin") :
    (updateTripStatus dbReady userReady role confirmAction updateSucceeds
        trip newStatus).trip = trip ∧
    (updateTripStatus dbReady userReady role confirmAction updateSucceeds
        trip newStatus).toast = some (permissionToast newStatus) ∧
    (trip.status = "Scheduled" →
      (updateTripStatus dbReady userReady role confirmAction updateSucceeds
          trip newStatus).trip.status = "Scheduled") := by
  have hc : canModifyTrips role = false := by
    unfold canModifyTrips
    rw [Bool.or_eq_false_iff]
    exact ⟨beq_eq_false_iff_ne.mpr h1, beq_eq_false_iff_ne.mpr h2⟩
  unfold updateTripStatus
  rw [hc]
  simp only [Bool.not_false, Bool.or_true, if_pos rfl]
  exact ⟨rfl, rfl, fun hs => hs⟩

theorem permission_guard_witness :
    (("viewer" : String) ≠ "dispatcher" ∧ ("viewer" : String) ≠ "admin") ∧
    ((updateTripStatus true true "viewer" true true scheduledTrip
        "In Progress").trip = scheduledTrip ∧
      (updateTripStatus true true "viewer" true true scheduledTrip
          "In Progress").toast = some (permissionToast "In Progress") ∧
      (scheduledTrip.status = "Scheduled" →
        (updateTripStatus true true "viewer" true true scheduledTrip
            "In Progress").trip.status = "Scheduled")) :=
  ⟨⟨by decide, by decide⟩,
    permission_guard true true "viewer" true true scheduledTrip "In Progress"
      (by decide) (by decide)⟩

/-- C3: the driver score is the sum of the performance component
(performanceRating/5)*40, the fatigue component (1 - min(hoursWorked,9)/9)*30
and the proximity component (proximityScore/100)*30, clamped to [0,100] and
rounded to 2 decimals; score(5,0,100) = 100.00 and score(1,9,0) = 8.00. -/
theorem driver_score_formula :
    (∀ r h p : ℚ, calculateDriverScore r h p =
      round2 (max 0 (min 100
        (r / 5 * 40 + (1 - min h 9 / 9) * 30 + p / 100 * 30)))) ∧
    calculateDriverScore 5 0 100 = 100 ∧
    calculateDriverScore 1 9 0 = 8 :=
  ⟨fun _ _ _ => rfl, by norm_num [calculateDriverScore, round2],
    by norm_num [calculateDriverScore, round2]⟩

/-- C4: the vehicle score is (fuelEfficiency*5) + utilizationScore minus a
maintenance penalty of 30 for Poor, 15 for Needs Check and 0 for Good,
clamped to [0,100] and rounded to 2 decimals; score(12,75,Good) = 100.00
(raw 135 clamped) and score(5,90,Poor) = 85.00 (no clamp). -/
theorem vehicle_score_formula :
    (∀ (f u : ℚ) (s : String), calculateVehicleScore f u s =
      round2 (max 0 (min 100 (f * 5 + u - maintenancePenalty s)))) ∧
    maintenancePenalty "Poor" = 30 ∧
    maintenancePenalty "Needs Check" = 15 ∧
    maintenancePenalty "Good" = 0 ∧
    calculateVehicleScore 12 75 "Good" = 100 ∧
    calculateVehicleScore 5 90 "Poor" = 85 :=
  ⟨fun _ _ _ => rfl, by decide, by decide, by decide,
    by norm_num +decide [calculateVehicleScore, maintenancePenalty, round2],
    by norm_num +decide [calculateVehicleScore, maintenancePenalty, round2]⟩

/-- C5: for performanceRating in [1,5], hoursWorked nonnegative and
proximityScore in [0,100] the driver score lies in [0,100], and the scorer
is a pure function: two invocations on identical inputs agree. -/
theorem driver_score_bounded_deterministic (r h p : ℚ)
    (h1 : 1 ≤ r) (h2 : r ≤ 5) (h3 : 0 ≤ h) (h4 : 0 ≤ p) (h5 : p ≤ 100) :
    0 ≤ calculateDriverScore r h p ∧ calculateDriverScore r h p ≤ 100 ∧
    calculateDriverScore r h p = calculateDriverScore r h p := by
  refine ⟨?_, ?_, rfl⟩
  · exact round2_nonneg (clamp_mem_Icc _).1
  · exact round2_le_100 (clamp_mem_Icc _).2

theorem driver_score_bounded_deterministic_witness :
    ((1:ℚ) ≤ 3 ∧ (3:ℚ) ≤ 5 ∧ (0:ℚ) ≤ 4 ∧ (0:ℚ) ≤ 50 ∧ (50:ℚ) ≤ 100) ∧
    (0 ≤ calculateDriverScore 3 4 50 ∧ calculateDriverScore 3 4 50 ≤ 100 ∧
      calculateDriverScore 3 4 50 = calculateDriverScore 3 4 50) :=
  ⟨by norm_num,
    driver_score_bounded_deterministic 3 4 50 (by norm_num) (by norm_num)
      (by norm_num) (by norm_num) (by norm_num)⟩

/-- C6: hoursWorked is clamped at 9 before normalising, so any overtime
value above 9 scores exactly like 9 hours; in particular
score(3,9,50) = score(3,15,50). -/
theorem overtime_clamped (r h p : ℚ) (hh : 9 < h) :
    calculateDriverScore r h p = calculateDriverScore r 9 p ∧
    calculateDriverScore 3 9 50 = calculateDriverScore 3 15 50 := by
  constructor
  · unfold calculateDriverScore
    rw [min_eq_right (le_of_lt hh), min_self]
  · norm_num [calculateDriverScore, round2]

theorem overtime_clamped_witness :
    ((9:ℚ) < 15) ∧
    (calculateDriverScore 3 15 50 = calculateDriverScore 3 9 50 ∧
      calculateDriverScore 3 9 50 = calculateDriverScore 3 15 50) :=
  ⟨by norm_num, overtime_clamped 3 15 50 (by norm_num)⟩

/-- C7: ranking scores every candidate and sorts descending by score
(the output is a permutation of the scored input, sorted so each element's
score dominates its successors), ties keep the original input order (the
filter at any fixed score value is unchanged by the sort), the recommended
candidate is the head of the sorted list and has maximal score, and
re-running on unchanged inputs returns the same order; all of this for the
driver ranking and the vehicle ranking alike. -/
theorem ranking_spec :
    (∀ ds : List Driver,
      (scoredDriversOf ds).Perm (ds.map scoreDriverEntry) ∧
      (scoredDriversOf ds).Sorted (scoreDesc ScoredDriver.driverScore) ∧
      (∀ c : ℚ, (scoredDriversOf ds).filter (fun x => x.driverScore == c) =
        (ds.map scoreDriverEntry).filter (fun x => x.driverScore == c)) ∧
      (∀ x ∈ scoredDriversOf ds, ∃ t,
        (scoredDriversOf ds).head? = some t ∧ x.driverScore ≤ t.driverScore ∧
        recommendedDriverId ds = some t.driver.id) ∧
      scoredDriversOf ds = scoredDriversOf ds) ∧
    (∀ vs : List Vehicle,
      (scoredVehiclesOf vs).Perm (vs.map scoreVehicleEntry) ∧
      (scoredVehiclesOf vs).Sorted (scoreDesc ScoredVehicle.vehicleScore) ∧
      (∀ c : ℚ, (scoredVehiclesOf vs).filter (fun x => x.vehicleScore == c) =
        (vs.map scoreVehicleEntry).filter (fun x => x.vehicleScore == c)) ∧
      (∀ x ∈ scoredVehiclesOf vs, ∃ t,
        (scoredVehiclesOf vs).head? = some t ∧
        x.vehicleScore ≤ t.vehicleScore ∧
        recommendedVehicleId vs = some t.vehicle.id) ∧
      scoredVehiclesOf vs = scoredVehiclesOf vs) := by
  constructor
  · intro ds
    refine ⟨List.perm_insertionSort _ _,
      List.sorted_insertionSort _ _,
      fun c => filter_stableSortDesc _ c _,
      ?_, rfl⟩
    intro x hx
    obtain ⟨t, hh, hle⟩ :=
      stableSortDesc_head_max ScoredDriver.driverScore _ x hx
    have hh2 : (scoredDriversOf ds).head? = some t := hh
    refine ⟨t, hh2, hle, ?_⟩
    rw [recommendedDriverId, hh2]
    rfl
  · intro vs
    refine ⟨List.perm_insertionSort _ _,
      List.sorted_insertionSort _ _,
      fun c => filter_stableSortDesc _ c _,
      ?_, rfl⟩
    intro x hx
    obtain ⟨t, hh, hle⟩ :=
      stableSortDesc_head_max ScoredVehicle.vehicleScore _ x hx
    have hh2 : (scoredVehiclesOf vs).head? = some t := hh
    refine ⟨t, hh2, hle, ?_⟩
    rw [recommendedVehicleId, hh2]
    rfl

theorem ranking_spec_witness :
    ∃ t, (scoredDriversOf mockDrivers).head? = some t ∧
      (scoreDriverEntry mockDriver1).driverScore ≤ t.driverScore ∧
      recommendedDriverId mockDrivers = some t.driver.id := by
  apply (ranking_spec.1 mockDrivers).2.2.2.1
  exact ((ranking_spec.1 mockDrivers).1).mem_iff.mpr
    (List.mem_map_of_mem scoreDriverEntry (by simp [mockDrivers]))

/-- C8: the estimated fuel cost for efficiency f and distance string d is
(parsed d) / f times the fixed per-unit price 0.5 and the fixed exchange
rate 83.5, rounded to 2 decimals (so f = 10, d = "100 km" gives ₹417.50);
a missing distance, a missing efficiency, or an unparseable distance yields
the sentinel "N/A" — the function is total, never a number, never a fault. -/
theorem fuel_cost_spec :
    (∀ (f : ℚ) (d : String) (dk : ℚ), f ≠ 0 →
      parseFloatQ (replaceFirst d " km" "") = some dk →
      calculateFuelCost (some f) (some d) =
        "₹" ++ toFixed2 (dk / f * 0.5 * USD_TO_INR_RATE)) ∧
    calculateFuelCost (some 10) (some "100 km") = "₹417.50" ∧
    (∀ f : Option ℚ, calculateFuelCost f none = "N/A") ∧
    (∀ d : Option String, calculateFuelCost none d = "N/A") ∧
    (∀ (f : ℚ) (d : String),
      parseFloatQ (replaceFirst d " km" "") = none →
      calculateFuelCost (some f) (some d) = "N/A") := by
  refine ⟨?_, ?_, ?_, ?_, ?_⟩
  · intro f d dk hf hp
    have hd : d ≠ "" := by
      intro hde
      subst hde
      rw [show replaceFirst "" " km" "" = "" from by decide] at hp
      rw [show parseFloatQ "" = none from by decide] at hp
      exact Option.noConfusion hp
    simp only [calculateFuelCost]
    rw [if_neg (by push_neg; exact ⟨hf, hd⟩), hp]
  · have hr : replaceFirst "100 km" " km" "" = "100" := by decide
    have hs : parseFloatParts ("100".data) = some (false, ['1', '0', '0'], []) := by
      decide
    have hd1 : digitsVal ['1', '0', '0'] = 100 := by decide
    have hd2 : digitsVal ([] : List Char) = 0 := by decide
    have hp : parseFloatQ "100" = some 100 := by
      rw [parseFloatQ, hs]
      norm_num [floatVal, hd1, hd2]
    have hc : (100 : ℚ) / 10 * 0.5 * USD_TO_INR_RATE = 417.5 := by
      norm_num [USD_TO_INR_RATE]
    have ht : toFixed2 (417.5 : ℚ) = "417.50" := by
      norm_num [toFixed2]
      decide
    simp only [calculateFuelCost]
    rw [if_neg (by push_neg; exact ⟨by norm_num, by decide⟩), hr, hp]
    simp only []
    rw [hc, ht]
    decide
  · intro f
    cases f <;> rfl
  · intro d
    rfl
  · intro f d hp
    simp only [calculateFuelCost]
    by_cases hfd : f = 0 ∨ d = ""
    · rw [if_pos hfd]
    · rw [if_neg hfd, hp]

theorem fuel_cost_spec_witness :
    (parseFloatQ (replaceFirst "abc" " km" "") = none) ∧
    calculateFuelCost (some 10) (some "abc") = "N/A" :=
  ⟨by decide, fuel_cost_spec.2.2.2.2 10 "abc" (by decide)⟩

/-- C9: a successful transition persists `{ status: newStatus }` and nothing
else: every other field of the trip record is unchanged. -/
theorem transition_updates_only_status (role : String) (trip : Trip)
    (newStatus : String) (hrole : canModifyTrips role = true) :
    (updateTripStatus true true role true true trip newStatus).trip.status
        = newStatus ∧
    (updateTripStatus true true role true true trip newStatus).trip.id
        = trip.id ∧
    (updateTripStatus true true role true true trip newStatus).trip.route
        = trip.route ∧
    (updateTripStatus true true role true true trip newStatus).trip.driver
        = trip.driver ∧
    (updateTripStatus true true role true true trip newStatus).trip.vehicle
        = trip.vehicle ∧
    (updateTripStatus true true role true true trip
        newStatus).trip.actualDeliveryTime = trip.actualDeliveryTime ∧
    (updateTripStatus true true role true true trip
        newStatus).trip.deliveryStatus = trip.deliveryStatus ∧
    (updateTripStatus true true role true true trip newStatus).trip.createdAt
        = trip.createdAt := by
  unfold updateTripStatus
  rw [hrole]
  exact ⟨rfl, rfl, rfl, rfl, rfl, rfl, rfl, rfl⟩

theorem transition_updates_only_status_witness :
    canModifyTrips "dispatcher" = true ∧
    (updateTripStatus true true "dispatcher" true true scheduledTrip
        "In Progress").trip.status = "In Progress" ∧
    (updateTripStatus true true "dispatcher" true true scheduledTrip
        "In Progress").trip.route = scheduledTrip.route :=
  ⟨by decide,
    (transition_updates_only_status "dispatcher" scheduledTrip "In Progress"
      (by decide)).1,
    (transition_updates_only_status "dispatcher" scheduledTrip "In Progress"
      (by decide)).2.2.1⟩

/-- C10: any maintenanceStatus string other than exactly "Poor" or exactly
"Needs Check" (with a space) incurs a penalty of 0 and scores like Good; in
particular the spelling "NeedsCheck" and the empty string get no penalty. -/
theorem unknown_status_no_penalty (f u : ℚ) (s : String)
    (h1 : s ≠ "Poor") (h2 : s ≠ "Needs Check") :
    maintenancePenalty s = 0 ∧
    calculateVehicleScore f u s = calculateVehicleScore f u "Good" ∧
    maintenancePenalty "NeedsCheck" = 0 ∧ maintenancePenalty "" = 0 := by
  have hp : maintenancePenalty s = 0 := by
    unfold maintenancePenalty
    rw [if_neg h1, if_neg h2]
  have hg : maintenancePenalty "Good" = 0 := by decide
  refine ⟨hp, ?_, by decide, by decide⟩
  simp only [calculateVehicleScore, hp, hg]

theorem unknown_status_no_penalty_witness :
    (("NeedsCheck" : String) ≠ "Poor" ∧ ("NeedsCheck" : String) ≠ "Needs Check") ∧
    (maintenancePenalty "NeedsCheck" = 0 ∧
      calculateVehicleScore 12 75 "NeedsCheck" = calculateVehicleScore 12 75 "Good" ∧
      maintenancePenalty "NeedsCheck" = 0 ∧ maintenancePenalty "" = 0) :=
  ⟨⟨by decide, by decide⟩,
    unknown_status_no_penalty 12 75 "NeedsCheck" (by decide) (by decide)⟩
